import Mathlib

/-
Verification of src/src/operator/random/multisample_op.cc (multi-distribution
batched random sampling operators).

Modelling conventions:
* C++ real-valued scalars (float, double, mshadow half_t) are modelled by `Rat`;
  integer counts by `Int`.  The compile-time type selection done with
  `std::conditional` in the source is modelled separately and explicitly on a
  small inductive `CppType` of the element types the operators dispatch over.
* The C++ standard library distribution objects (`std::uniform_int_distribution`,
  `std::gamma_distribution`, ...) are external to the repository.  They are
  modelled by a `DistKernel` record of deterministic draw functions threading an
  abstract engine state `R` (the `std::mt19937` state): each draw is a pure
  function of the distribution parameters and the engine state, returning the
  value and the advanced engine state.  The C++ standard specifies distributions
  this way up to the implementation-defined value mapping; theorems about call
  structure and state threading are proved for every kernel, while facts that
  depend on a specific contract of the standard library (for example the closed
  output range of `std::uniform_int_distribution`) are modelled explicitly and
  documented at their definition.
* The sampler structs of the source are translated field by field; their
  `operator()` becomes a `draw` function from sampler state to value and next
  sampler state, and `drawSeq` iterates it.
-/

namespace Multisample

/-- The element types the mshadow type switch dispatches over in this operator
(float16 is mshadow half_t, a class type, not a C++ builtin floating point). -/
inductive CppType
  | float16
  | float32
  | float64
  | uint8
  | int32
  | int64
  deriving DecidableEq, Repr

/-- C++ std.is_floating_point: true exactly for the builtin floating point types
among the dispatched element types (half_t is a class, so it is false there). -/
def CppType.isFloatingPoint : CppType → Bool
  | .float32 => true
  | .float64 => true
  | _ => false

/-- C++ std.is_integral on the dispatched element types. -/
def CppType.isIntegral : CppType → Bool
  | .uint8 => true
  | .int32 => true
  | .int64 => true
  | _ => false

/-- Interface to the C++ standard library random facilities used by the
samplers: an engine seeding function (std.mt19937 construction from a seed,
source line 14/23) and one deterministic draw function per distribution class
used by the source, each a pure function of the distribution parameters and the
engine state that returns the drawn value and the advanced engine state. -/
structure DistKernel (R : Type) where
  seedEngine : Int → R
  uniformIntDraw : Int → Int → R → Int × R
  uniformRealDraw : Rat → Rat → R → Rat × R
  normalDraw : Rat → Rat → R → Rat × R
  gammaDraw : Rat → Rat → R → Rat × R
  expDraw : Rat → R → Rat × R
  poissonDraw : Rat → R → Int × R
  negBinDraw : Int → Rat → R → Int × R

/-- PoissonSampler::Sampler (source lines 69-81): fields `rnd_` (the seeded
mt19937 engine) and the Poisson distribution parameter lambda stored in `gen_`. -/
structure PoissonSampler (R : Type) where
  lambda : Rat
  rnd_ : R

/-- PoissonSampler::Sampler constructor (line 78): `Sampler(PType lambda, PType ,
int seed): rnd_(seed), gen_(lambda)` — the second parameter is anonymous and
unused. -/
def PoissonSampler.construct (K : DistKernel R) (lambda v : Rat) (seed : Int) :
    PoissonSampler R :=
  ⟨lambda, K.seedEngine seed⟩

/-- PoissonSampler::Sampler::operator() (line 79): one draw from the stored
Poisson distribution using the stored engine. -/
def PoissonSampler.draw (K : DistKernel R) (s : PoissonSampler R) :
    Int × PoissonSampler R :=
  let p := K.poissonDraw s.lambda s.rnd_
  (p.1, ⟨s.lambda, p.2⟩)

/-- Repeated calls to PoissonSampler::Sampler::operator(), threading the engine. -/
def PoissonSampler.drawSeq (K : DistKernel R) : PoissonSampler R → Nat → List Int
  | _, 0 => []
  | s, n + 1 =>
    let p := PoissonSampler.draw K s
    p.1 :: PoissonSampler.drawSeq K p.2 n

/-- GeneralizedNegativeBinomialSampler::Sampler (source lines 100-117): fields
`poisson_` (boundary flag), `mu_`, `rnd_`, and the gamma distribution `gen_`
whose two constructor arguments are stored as `genAlpha`, `genBeta`. -/
structure GNBSampler (R : Type) where
  poisson_ : Bool
  mu_ : Rat
  rnd_ : R
  genAlpha : Rat
  genBeta : Rat

/-- GeneralizedNegativeBinomialSampler::Sampler constructor (lines 110-111):
`poisson_(alpha == 0.0), mu_(mu), rnd_(seed),
gen_((alpha == PType(0) ? PType(1) : PType(1)/alpha), mu*alpha)`. -/
def GNBSampler.construct (K : DistKernel R) (mu alpha : Rat) (seed : Int) :
    GNBSampler R :=
  { poisson_ := alpha == 0
    mu_ := mu
    rnd_ := K.seedEngine seed
    genAlpha := if alpha = 0 then 1 else 1 / alpha
    genBeta := mu * alpha }

/-- GeneralizedNegativeBinomialSampler::Sampler::operator() (lines 114-115):
`poisson_distribution<GType>(poisson_ ? mu_ : gen_(rnd_))(rnd_)` — when
`poisson_` holds the gamma engine is not consulted (the conditional operator
short-circuits), otherwise one gamma draw advances the engine and its value
parameterizes the Poisson draw. -/
def GNBSampler.draw (K : DistKernel R) (s : GNBSampler R) : Int × GNBSampler R :=
  let lam : Rat × R :=
    if s.poisson_ then (s.mu_, s.rnd_) else K.gammaDraw s.genAlpha s.genBeta s.rnd_
  let p := K.poissonDraw lam.1 lam.2
  (p.1, { s with rnd_ := p.2 })

/-- Repeated calls to the generalized negative binomial operator(). -/
def GNBSampler.drawSeq (K : DistKernel R) : GNBSampler R → Nat → List Int
  | _, 0 => []
  | s, n + 1 =>
    let p := GNBSampler.draw K s
    p.1 :: GNBSampler.drawSeq K p.2 n

theorem gnb_poisson_state_eq (K : DistKernel R) (mu ga gb : Rat) (n : Nat) :
    ∀ r : R,
      GNBSampler.drawSeq K
        { poisson_ := true, mu_ := mu, rnd_ := r, genAlpha := ga, genBeta := gb } n
      = PoissonSampler.drawSeq K ⟨mu, r⟩ n := by
  induction n with
  | zero => intro r; rfl
  | succ m ih =>
    intro r
    simp only [GNBSampler.drawSeq, GNBSampler.draw, PoissonSampler.drawSeq,
      PoissonSampler.draw, if_pos rfl]
    exact congrArg _ (ih _)

/-- C1: with dispersion alpha = 0 the generalized negative binomial sampler sets
its boundary flag, stores gamma shape 1 (no division by alpha), never consults
the gamma stage, and its draw sequence for every kernel, mean mu, seed and
length equals that of the Poisson sampler constructed with parameter mu and the
same seed. -/
theorem C1_gnb_alpha_zero_matches_poisson (R : Type) (K : DistKernel R)
    (mu v : Rat) (seed : Int) (n : Nat) :
    (GNBSampler.construct K mu 0 seed).poisson_ = true
    ∧ (GNBSampler.construct K mu 0 seed).genAlpha = 1
    ∧ GNBSampler.drawSeq K (GNBSampler.construct K mu 0 seed) n
      = PoissonSampler.drawSeq K (PoissonSampler.construct K mu v seed) n := by
  refine ⟨by simp [GNBSampler.construct], by simp [GNBSampler.construct], ?_⟩
  simp only [GNBSampler.construct, PoissonSampler.construct, if_pos rfl]
  exact gnb_poisson_state_eq K mu 1 (mu * 0) n (K.seedEngine seed)

/-- ExponentialSampler::Sampler (source lines 55-67): engine plus the stored
rate parameter of `gen_`. -/
structure ExponentialSampler (R : Type) where
  lambda : Rat
  rnd_ : R

/-- ExponentialSampler::Sampler constructor (line 64): `Sampler(PType lambda,
PType , int seed): rnd_(seed), gen_(lambda)` — the second parameter is
anonymous and unused. -/
def ExponentialSampler.construct (K : DistKernel R) (lambda v : Rat)
    (seed : Int) : ExponentialSampler R :=
  ⟨lambda, K.seedEngine seed⟩

/-- ExponentialSampler::Sampler::operator() (line 65). -/
def ExponentialSampler.draw (K : DistKernel R) (s : ExponentialSampler R) :
    Rat × ExponentialSampler R :=
  let p := K.expDraw s.lambda s.rnd_
  (p.1, ⟨s.lambda, p.2⟩)

/-- Repeated calls to ExponentialSampler::Sampler::operator(). -/
def ExponentialSampler.drawSeq (K : DistKernel R) :
    ExponentialSampler R → Nat → List Rat
  | _, 0 => []
  | s, n + 1 =>
    let p := ExponentialSampler.draw K s
    p.1 :: ExponentialSampler.drawSeq K p.2 n

/-- C9: the exponential sampler's draw sequence is a function of the rate
parameter and the seed only — the value passed in the second (anonymous,
unused) constructor slot never influences any draw; the same holds for the
Poisson sampler's second slot. -/
theorem C9_second_slot_ignored (R : Type) (K : DistKernel R) (lam v v' : Rat)
    (seed : Int) (n : Nat) :
    ExponentialSampler.drawSeq K (ExponentialSampler.construct K lam v seed) n
      = ExponentialSampler.drawSeq K (ExponentialSampler.construct K lam v' seed) n
    ∧ PoissonSampler.drawSeq K (PoissonSampler.construct K lam v seed) n
      = PoissonSampler.drawSeq K (PoissonSampler.construct K lam v' seed) n :=
  ⟨rfl, rfl⟩

/-- GammaSampler::Sampler (source lines 41-53): engine plus the two stored
parameters (shape alpha, scale beta) of `gen_`. -/
structure GammaSampler (R : Type) where
  alpha : Rat
  beta : Rat
  rnd_ : R

/-- GammaSampler::Sampler constructor (line 50): `Sampler(PType alpha, PType
beta, int seed): rnd_(seed), gen_(alpha, beta)`; no parameter validation is
performed, every alpha (including 0) is accepted. -/
def GammaSampler.construct (K : DistKernel R) (alpha beta : Rat) (seed : Int) :
    GammaSampler R :=
  ⟨alpha, beta, K.seedEngine seed⟩

/-- GammaSampler::Sampler::operator() (line 51). -/
def GammaSampler.draw (K : DistKernel R) (s : GammaSampler R) :
    Rat × GammaSampler R :=
  let p := K.gammaDraw s.alpha s.beta s.rnd_
  (p.1, ⟨s.alpha, s.beta, p.2⟩)

/-- Repeated calls to GammaSampler::Sampler::operator(). -/
def GammaSampler.drawSeq (K : DistKernel R) : GammaSampler R → Nat → List Rat
  | _, 0 => []
  | s, n + 1 =>
    let p := GammaSampler.draw K s
    p.1 :: GammaSampler.drawSeq K p.2 n

theorem gamma_drawSeq_all_zero (K : DistKernel R) (beta : Rat)
    (hK : ∀ b r, (K.gammaDraw 0 b r).1 = 0) (n : Nat) :
    ∀ r : R, (GammaSampler.drawSeq K ⟨0, beta, r⟩ n).all (fun x => x == 0) = true := by
  induction n with
  | zero => intro r; rfl
  | succ m ih =>
    intro r
    simp only [GammaSampler.drawSeq, GammaSampler.draw, List.all_cons, ih,
      Bool.and_true]
    simp [hK]

/-- C5: for shape parameter alpha = 0 the gamma sampler is constructed without
any rejection (construction is total) and, for every kernel whose gamma draw
honours the degenerate point mass at 0 documented for this boundary, every
element of every draw sequence is exactly 0, for every scale beta and seed. -/
theorem C5_gamma_alpha_zero_constant (R : Type) (K : DistKernel R)
    (beta : Rat) (seed : Int) (n : Nat)
    (hK : ∀ b r, (K.gammaDraw 0 b r).1 = 0) :
    (GammaSampler.construct K 0 beta seed).alpha = 0
    ∧ (GammaSampler.drawSeq K (GammaSampler.construct K 0 beta seed) n).all
        (fun x => x == 0) = true :=
  ⟨rfl, gamma_drawSeq_all_zero K beta hK n (K.seedEngine seed)⟩

/-- UniformSampler::Sampler (source lines 11-26) in its `std::is_integral<DType>`
instantiation: `GType` is `std::uniform_int_distribution<DType>` constructed as
`gen_(a, b)` from the two untransformed parameters, and `operator()` returns
`gen_(rnd_)`. -/
structure UniformIntSampler (R : Type) where
  a : Int
  b : Int
  rnd_ : R

/-- UniformSampler::Sampler constructor (line 23): `Sampler(PType a, PType b,
int seed): rnd_(seed), gen_(a, b)` — the bounds are passed through unchanged. -/
def UniformIntSampler.construct (K : DistKernel R) (a b : Int) (seed : Int) :
    UniformIntSampler R :=
  ⟨a, b, K.seedEngine seed⟩

/-- UniformSampler::Sampler::operator() (line 24) for integral DType. -/
def UniformIntSampler.draw (K : DistKernel R) (s : UniformIntSampler R) :
    Int × UniformIntSampler R :=
  let p := K.uniformIntDraw s.a s.b s.rnd_
  (p.1, ⟨s.a, s.b, p.2⟩)

/-- Model of `std::uniform_int_distribution(a, b)` applied to an engine in
state r.  The C++ standard (rand.dist.uni.int) specifies its result lies in the
CLOSED range a ≤ result ≤ b with every value attainable; this conforming model
realizes value a + (r mod (b - a + 1)) and advances the engine. -/
def stdUniformIntDraw (a b : Int) (r : Nat) : Int × Nat :=
  (a + Int.ofNat (r % ((b - a).toNat + 1)), r + 1)

/-- Model of `std::gamma_distribution(alpha, beta)` applied to an engine in
state r.  For alpha = 0 it returns the degenerate point mass 0 (the boundary
behavior the operator docs rely on); otherwise a conforming arbitrary value. -/
def stdGammaDraw (a b : Rat) (r : Nat) : Rat × Nat :=
  if a == 0 then (0, r + 1) else (a * b + (r : Rat), r + 1)

/-- Model of `std::poisson_distribution(lam)` applied to an engine in state r:
some nonnegative count depending on the parameter and the engine state. -/
def stdPoissonDraw (lam : Rat) (r : Nat) : Int × Nat :=
  (lam.floor.natAbs + (r : Int), r + 1)

/-- One concrete conforming standard-library kernel over engine state Nat
(the mt19937 state abstracted to a counter), used to evaluate the samplers on
concrete inputs. -/
def cppKernel : DistKernel Nat where
  seedEngine := Int.natAbs
  uniformIntDraw := stdUniformIntDraw
  uniformRealDraw := fun a _b r => (a, r + 1)
  normalDraw := fun mu _sigma r => (mu + (r : Rat), r + 1)
  gammaDraw := stdGammaDraw
  expDraw := fun lam r => (lam + (r : Rat), r + 1)
  poissonDraw := stdPoissonDraw
  negBinDraw := fun k _p r => (k + (r : Int), r + 1)

/-- Witness for C5 at the concrete kernel: alpha = 0, beta = 5, seed = 7,
three draws, all exactly 0. -/
theorem C5_gamma_alpha_zero_constant_witness :
    (GammaSampler.construct cppKernel 0 5 7).alpha = 0
    ∧ (GammaSampler.drawSeq cppKernel (GammaSampler.construct cppKernel 0 5 7) 3).all
        (fun x => x == 0) = true :=
  C5_gamma_alpha_zero_constant Nat cppKernel 5 7 3 (fun _b _r => rfl)

/-- C4 evaluation at the failing input: for integral output type the uniform
sampler constructed with low = 0, high = 1 (and seed 1, putting the modelled
engine in state 1) draws the value 1 — equal to high, hence outside the
half-open range [low, high) that the operator documents. -/
theorem C4_uniform_int_high_attained :
    CppType.int32.isIntegral = true
    ∧ (UniformIntSampler.draw cppKernel
        (UniformIntSampler.construct cppKernel 0 1 1)).1 = 1
    ∧ ¬ (UniformIntSampler.draw cppKernel
        (UniformIntSampler.construct cppKernel 0 1 1)).1 < 1 := by
  refine ⟨rfl, rfl, ?_⟩
  decide

/-- Modelled from the spec: per-lane seed derivation of the sampling executor
(MultiSampleOpForward lives in multisample_op.h, which is not part of the
sources here).  The spec requires the seed of lane i to be derived from the
random resource's current state combined with i, with distinct lanes never
sharing generator state; the pairing function realizes such a derivation. -/
def deriveSeed (res i : Nat) : Int :=
  Int.ofNat (Nat.pair res i)

/-- Modelled from the spec: a single invocation advances the shared random
resource's state exactly once (not once per lane). -/
def advanceResource (res : Nat) : Nat :=
  res + 1

/-- Modelled from the spec: the per-lane loop of the executor — m draws by
repeated calls to the family's draw on one generator state, threading that
state from draw to draw, written contiguously for the lane. -/
def executeLane (draw : S → V × S) : S → Nat → List V
  | _, 0 => []
  | s, m + 1 =>
    let p := draw s
    p.1 :: executeLane draw p.2 m

/-- Modelled from the spec: the elementwise sampling executor
(MultiSampleOpForward), generic over the parameter element type P of the
family (real for the continuous families, integral e.g. for uniform over
integers).  For each linear index i of the parameter arrays it reads both
parameters at i, constructs the family generator once from them and the
derived per-lane seed, and produces the lane's m draws. -/
def execute (dflt : P) (construct : P → P → Int → S) (draw : S → V × S)
    (p1 p2 : List P) (m res : Nat) : List (List V) :=
  (List.range p1.length).map fun i =>
    executeLane draw (construct (p1.getD i dflt) (p2.getD i dflt) (deriveSeed res i)) m

/-- Modelled from the spec: one operator invocation returns the sampled output
and the advanced resource state. -/
def invoke (dflt : P) (construct : P → P → Int → S) (draw : S → V × S)
    (p1 p2 : List P) (m res : Nat) : List (List V) × Nat :=
  (execute dflt construct draw p1 p2 m res, advanceResource res)

theorem executeLane_split (draw : S → V × S) (k j : Nat) :
    ∀ s : S, executeLane draw s (k + j)
      = executeLane draw s k ++ executeLane draw ((fun t => (draw t).2)^[k] s) j := by
  induction k with
  | zero =>
    intro s
    rw [Nat.zero_add]
    rfl
  | succ k ih =>
    intro s
    rw [Nat.succ_add]
    simp only [executeLane, List.cons_append, Function.iterate_succ_apply]
    exact congrArg _ (ih _)

theorem execute_lane_eq (dflt : P) (construct : P → P → Int → S)
    (draw : S → V × S) (p1 p2 : List P) (m res i : Nat) (hi : i < p1.length) :
    (execute dflt construct draw p1 p2 m res).getD i []
      = executeLane draw
          (construct (p1.getD i dflt) (p2.getD i dflt) (deriveSeed res i)) m := by
  simp [execute, List.getD, List.getElem?_map, List.getElem?_range, hi]

/-- C7: (a) the lane of index i of an execution is exactly the m-fold
iteration of the family's draw starting from one generator constructed once
from that lane's parameters and seed; (b) the lane depends only on its own
parameters (changing other lanes' parameters leaves it unchanged), so no
generator state is shared between lanes; (c) within a lane the draws after the
first k continue from the generator state that the first k draws produced. -/
theorem C7_single_generator_per_lane (P S V : Type) (dflt : P)
    (construct : P → P → Int → S) (draw : S → V × S)
    (p1 p2 q1 q2 : List P) (m res i k j : Nat) (s : S)
    (hi : i < p1.length) (hlen : q1.length = p1.length)
    (h1 : q1.getD i dflt = p1.getD i dflt) (h2 : q2.getD i dflt = p2.getD i dflt) :
    (execute dflt construct draw p1 p2 m res).getD i []
      = executeLane draw
          (construct (p1.getD i dflt) (p2.getD i dflt) (deriveSeed res i)) m
    ∧ (execute dflt construct draw q1 q2 m res).getD i []
      = (execute dflt construct draw p1 p2 m res).getD i []
    ∧ executeLane draw s (k + j)
      = executeLane draw s k ++ executeLane draw ((fun t => (draw t).2)^[k] s) j := by
  refine ⟨execute_lane_eq dflt construct draw p1 p2 m res i hi, ?_,
    executeLane_split draw k j s⟩
  rw [execute_lane_eq dflt construct draw p1 p2 m res i hi,
    execute_lane_eq dflt construct draw q1 q2 m res i (hlen ▸ hi), h1, h2]

/-- Witness for C7 at a concrete executor instance (two lanes, two draws per
lane, lane 0 compared across parameter lists that agree only at index 0). -/
theorem C7_single_generator_per_lane_witness :
    (execute (0 : Rat) (fun _ _ sd => sd.natAbs) (fun s => (s, s + 1))
        [1, 2] [3, 4] 2 0).getD 0 []
      = executeLane (fun s => (s, s + 1))
          ((fun (_ _ : Rat) (sd : Int) => sd.natAbs) (([1, 2] : List Rat).getD 0 0)
            (([3, 4] : List Rat).getD 0 0) (deriveSeed 0 0)) 2
    ∧ (execute (0 : Rat) (fun _ _ sd => sd.natAbs) (fun s => (s, s + 1))
        [1, 5] [3, 6] 2 0).getD 0 []
      = (execute (0 : Rat) (fun _ _ sd => sd.natAbs) (fun s => (s, s + 1))
          [1, 2] [3, 4] 2 0).getD 0 []
    ∧ executeLane (fun s => (s, s + 1)) (0 : Nat) (1 + 1)
      = executeLane (fun s => (s, s + 1)) (0 : Nat) 1
        ++ executeLane (fun s => (s, s + 1)) ((fun t => ((fun s => (s, s + 1)) t).2)^[1] (0 : Nat)) 1 :=
  C7_single_generator_per_lane Rat Nat Nat 0 (fun _ _ sd => sd.natAbs) (fun s => (s, s + 1))
    [1, 2] [3, 4] [1, 5] [3, 6] 2 0 0 1 1 0 (by decide) rfl rfl rfl

/-- C6 counterexample: as stated, the claim requires two sequential
invocations against the same advancing resource state to yield DIFFERENT
outputs; for the gamma family at the degenerate boundary alpha = 0 every draw
is 0, so the first invocation (resource state 0) and the second (the advanced
state it returns) produce identical outputs even though the resource advanced. -/
theorem C6_sequential_invocations_can_coincide :
    (invoke (0 : Rat) (GammaSampler.construct cppKernel) (GammaSampler.draw cppKernel)
        [0] [5] 1 0).2 ≠ 0
    ∧ (invoke (0 : Rat) (GammaSampler.construct cppKernel) (GammaSampler.draw cppKernel)
        [0] [5] 1
        ((invoke (0 : Rat) (GammaSampler.construct cppKernel) (GammaSampler.draw cppKernel)
          [0] [5] 1 0).2)).1
      = (invoke (0 : Rat) (GammaSampler.construct cppKernel) (GammaSampler.draw cppKernel)
          [0] [5] 1 0).1 := by
  refine ⟨by decide, ?_⟩
  rfl

/-- C6 as amended: construction with equal parameters and equal seeds yields
identical draw sequences, and resetting the resource to the same state before
each invocation reproduces identical outputs; a second sequential invocation
consumes per-lane seeds different from the first (so outputs differ in
general, as the concrete uniform instance in the last conjunct shows, though
degenerate families may repeat them). -/
theorem C6_reproducibility (S V : Type) (construct : Rat → Rat → Int → S)
    (draw : S → V × S) (p1 p2 : List Rat) (a b : Rat) (m res res' i : Nat)
    (seed seed' : Int) (hseed : seed' = seed) (hres : res' = res) :
    executeLane draw (construct a b seed) m = executeLane draw (construct a b seed') m
    ∧ invoke (0 : Rat) construct draw p1 p2 m res
      = invoke (0 : Rat) construct draw p1 p2 m res'
    ∧ deriveSeed (advanceResource res) i ≠ deriveSeed res i
    ∧ (invoke (0 : Int) (UniformIntSampler.construct cppKernel) (UniformIntSampler.draw cppKernel)
        [0] [10] 1 (advanceResource 0)).1
      ≠ (invoke (0 : Int) (UniformIntSampler.construct cppKernel) (UniformIntSampler.draw cppKernel)
          [0] [10] 1 0).1 := by
  subst hseed
  subst hres
  refine ⟨rfl, rfl, ?_, by decide⟩
  intro h
  exact Nat.succ_ne_self _ (Nat.pair_eq_pair.mp (Int.ofNat.inj h)).1

/-- Witness for C6 as amended, at a concrete sampler family and concrete
resource states and seeds. -/
theorem C6_reproducibility_witness :
    executeLane (fun s => (s, s + 1)) ((fun (_ _ : Rat) (sd : Int) => sd.natAbs) 1 2 3) 2
      = executeLane (fun s => (s, s + 1)) ((fun (_ _ : Rat) (sd : Int) => sd.natAbs) 1 2 3) 2
    ∧ invoke (0 : Rat) (fun (_ _ : Rat) (sd : Int) => sd.natAbs)
        (fun s => (s, s + 1)) [1] [2] 2 4
      = invoke (0 : Rat) (fun (_ _ : Rat) (sd : Int) => sd.natAbs)
          (fun s => (s, s + 1)) [1] [2] 2 4
    ∧ deriveSeed (advanceResource 4) 0 ≠ deriveSeed 4 0
    ∧ (invoke (0 : Int) (UniformIntSampler.construct cppKernel) (UniformIntSampler.draw cppKernel)
        [0] [10] 1 (advanceResource 0)).1
      ≠ (invoke (0 : Int) (UniformIntSampler.construct cppKernel) (UniformIntSampler.draw cppKernel)
          [0] [10] 1 0).1 :=
  C6_reproducibility Nat Nat (fun _ _ sd => sd.natAbs) (fun s => (s, s + 1))
    [1] [2] 1 2 2 4 4 0 3 3 rfl rfl

/-- Modelled from the spec: MultiSampleOpShape (declared in multisample_op.h,
which is not part of the sources here; the registration at source line 134
installs it as FInferShape).  It validates that all parameter arrays share one
shape and resolves the output shape to that shape concatenated with the
configured extra shape. -/
def MultiSampleOpShape (inShapes : List (List Nat)) (extra : List Nat) :
    Option (List Nat) :=
  match inShapes with
  | [] => none
  | s :: rest => if rest.all (fun t => t == s) then some (s ++ extra) else none

/-- C2: whenever all parameter arrays share the shape s, the resolved output
shape is s ++ extra, and with an empty extra shape it is exactly s. -/
theorem C2_output_shape (inShapes : List (List Nat)) (extra s : List Nat)
    (hhead : inShapes.head? = some s) (hall : ∀ t ∈ inShapes, t = s) :
    MultiSampleOpShape inShapes extra = some (s ++ extra)
    ∧ (extra = [] → MultiSampleOpShape inShapes extra = some s) := by
  match inShapes, hhead with
  | a :: rest, hhead =>
    have ha : a = s := by simpa using hhead
    subst ha
    have hrest : rest.all (fun t => t == a) = true := by
      rw [List.all_eq_true]
      intro t ht
      exact beq_iff_eq.mpr (hall t (List.mem_cons_of_mem a ht))
    constructor
    · simp [MultiSampleOpShape, hrest]
    · intro he
      subst he
      simp [MultiSampleOpShape, hrest]

/-- Witness for C2: two parameter arrays of shape [2, 3] and extra shape [4]. -/
theorem C2_output_shape_witness :
    MultiSampleOpShape [[2, 3], [2, 3]] [4] = some ([2, 3] ++ [4])
    ∧ ([4] = ([] : List Nat) →
        MultiSampleOpShape [[2, 3], [2, 3]] [4] = some [2, 3]) :=
  C2_output_shape [[2, 3], [2, 3]] [4] [2, 3] rfl (by decide)

/-- The seven registered distribution families (source lines 362-379). -/
inductive Family
  | uniform
  | normal
  | gammaF
  | exponential
  | poisson
  | negativeBinomial
  | generalizedNegativeBinomial
  deriving DecidableEq, Repr

/-- The count-valued families: Poisson and the two negative binomial variants
(their descriptions state "Samples will always be returned as a floating point
data type", source lines 285, 315, 346). -/
def Family.isCountValued : Family → Bool
  | .poisson => true
  | .negativeBinomial => true
  | .generalizedNegativeBinomial => true
  | _ => false

/-- A floating-point element type in the dtype sense (half counts here, unlike
for the C++ builtin predicate). -/
def CppType.isFloatDType : CppType → Bool
  | .float16 => true
  | .float32 => true
  | .float64 => true
  | _ => false

/-- Modelled from the spec: MultiSampleOpType (declared in multisample_op.h,
which is not part of the sources here; the registration at source line 135
installs it as FInferType).  Count-valued families resolve to a floating-point
output type (float32, the default real type) regardless of the input element
type; the continuous families resolve to the input element type. -/
def MultiSampleOpType (f : Family) (d : CppType) : CppType :=
  if f.isCountValued then CppType.float32 else d

/-- C3: for the count-valued families the resolved output element type is a
floating-point type for every input element type (integral ones included), and
for the continuous families it equals the input element type. -/
theorem C3_output_dtype (f : Family) (d : CppType) :
    (f.isCountValued = true → (MultiSampleOpType f d).isFloatDType = true)
    ∧ (f.isCountValued = false → MultiSampleOpType f d = d) := by
  constructor <;> intro h <;> simp [MultiSampleOpType, h, CppType.isFloatDType]

/-- Witness for C3: Poisson on an integral input resolves to a floating-point
output type, uniform on the same integral input keeps the input type. -/
theorem C3_output_dtype_witness :
    (MultiSampleOpType Family.poisson CppType.int32).isFloatDType = true
    ∧ MultiSampleOpType Family.uniform CppType.int32 = CppType.int32 :=
  ⟨(C3_output_dtype Family.poisson CppType.int32).1 rfl,
    (C3_output_dtype Family.uniform CppType.int32).2 rfl⟩

/-- A tensor: a shape and its flat data. -/
structure Tensor where
  shape : List Nat
  data : List Rat
  deriving DecidableEq, Repr

/-- A zero tensor with the shape (and element count) of the given tensor. -/
def zerosLike (t : Tensor) : Tensor :=
  ⟨t.shape, List.replicate t.data.length 0⟩

/-- Modelled from the spec: MakeZeroGradNodes (installed as FGradient for every
sampling operator at source line 140; defined outside the sources here).  The
backward pass of a sampling operator returns one zero-valued gradient per
input, each with the corresponding input's shape. -/
def MakeZeroGradNodes (inputs : List Tensor) : List Tensor :=
  inputs.map zerosLike

/-- C8: for every input list, the backward pass returns exactly one gradient
per input, each gradient has the corresponding input's shape and element
count, and every one of its entries is 0. -/
theorem C8_zero_gradients (inputs : List Tensor) :
    List.Forall₂
      (fun g t => g.shape = t.shape ∧ g.data.length = t.data.length
        ∧ ∀ x ∈ g.data, x = 0)
      (MakeZeroGradNodes inputs) inputs := by
  induction inputs with
  | nil => exact List.Forall₂.nil
  | cons a l ih =>
    refine List.Forall₂.cons ⟨rfl, by simp [zerosLike], ?_⟩ ih
    intro x hx
    exact List.eq_of_mem_replicate hx

/-- std conditional type FType of the samplers (UniformSampler lines 16-17,
NormalSampler lines 32-33, GammaSampler lines 46-47, ExponentialSampler lines
60-61): the output element type itself when it is a C++ builtin floating point
type, double otherwise. -/
def FType (d : CppType) : CppType :=
  if d.isFloatingPoint then d else CppType.float64

/-- A standard library distribution class instantiation together with its
value type. -/
inductive DistClass
  | uniformInt (t : CppType)
  | uniformReal (t : CppType)
  | normalD (t : CppType)
  | gammaD (t : CppType)
  | expD (t : CppType)
  deriving DecidableEq, Repr

/-- The type in which a distribution class instantiation computes its draws. -/
def DistClass.valueType : DistClass → CppType
  | .uniformInt t => t
  | .uniformReal t => t
  | .normalD t => t
  | .gammaD t => t
  | .expD t => t

/-- UniformSampler GType (source lines 18-20):
`std::uniform_int_distribution<DType>` for integral DType, otherwise
`std::uniform_real_distribution<FType>`. -/
def UniformSampler.GType (d : CppType) : DistClass :=
  if d.isIntegral then DistClass.uniformInt d else DistClass.uniformReal (FType d)

/-- NormalSampler distribution (source lines 32-34):
`std::normal_distribution<GType>` with GType the FType conditional. -/
def NormalSampler.GType (d : CppType) : DistClass :=
  DistClass.normalD (FType d)

/-- GammaSampler distribution (source lines 46-48). -/
def GammaSampler.GType (d : CppType) : DistClass :=
  DistClass.gammaD (FType d)

/-- ExponentialSampler distribution (source lines 60-62). -/
def ExponentialSampler.GType (d : CppType) : DistClass :=
  DistClass.expD (FType d)

/-- C10 counterexample: int32 is an output element type that is not a C++
builtin floating point type, yet the uniform sampler computes its draw in
int32 itself (via uniform_int_distribution<int32>), not in double as the
claim requires of every continuous family at every such type. -/
theorem C10_uniform_integral_not_double :
    CppType.int32.isFloatingPoint = false
    ∧ (UniformSampler.GType CppType.int32).valueType = CppType.int32
    ∧ (UniformSampler.GType CppType.int32).valueType ≠ CppType.float64 := by
  decide

/-- C10 as amended: for normal, gamma and exponential at every output element
type, and for uniform at non-integral output element types, a type that is not
a builtin floating point (e.g. half precision) makes the draw be computed in
double precision and converted to the output type on return (operator(), lines
24/37/51/65), while a builtin floating point type is computed in directly;
uniform at an integral output element type computes directly in that integral
type. -/
theorem C10_compute_precision (d : CppType) :
    (d.isFloatingPoint = true →
      NormalSampler.GType d = DistClass.normalD d
      ∧ GammaSampler.GType d = DistClass.gammaD d
      ∧ ExponentialSampler.GType d = DistClass.expD d
      ∧ UniformSampler.GType d = DistClass.uniformReal d)
    ∧ (d.isFloatingPoint = false →
      NormalSampler.GType d = DistClass.normalD CppType.float64
      ∧ GammaSampler.GType d = DistClass.gammaD CppType.float64
      ∧ ExponentialSampler.GType d = DistClass.expD CppType.float64)
    ∧ (d.isFloatingPoint = false → d.isIntegral = false →
      UniformSampler.GType d = DistClass.uniformReal CppType.float64)
    ∧ (d.isIntegral = true → UniformSampler.GType d = DistClass.uniformInt d) := by
  cases d <;> decide

/-- Witness for C10 as amended: half precision output is computed in double
for normal, gamma, exponential and uniform. -/
theorem C10_compute_precision_witness :
    NormalSampler.GType CppType.float16 = DistClass.normalD CppType.float64
    ∧ GammaSampler.GType CppType.float16 = DistClass.gammaD CppType.float64
    ∧ ExponentialSampler.GType CppType.float16 = DistClass.expD CppType.float64 :=
  (C10_compute_precision CppType.float16).2.1 rfl

end Multisample
